import Mathlib

/-!
Shallow embedding of the relevance predicates of
`controllers/clusterhealthcheck_predicates.go` from the
healthcheck-manager repository, together with theorems settling the
specification claims about them.

Modelling conventions:

* Go pointers to objects that the code compares against `nil` are
  modelled as `Option`.
* A Go `map[string]string` (the label map of a Kubernetes object) is
  modelled as `Option (List (String × String))`: `none` is the nil
  map, `some l` a non-nil map whose entries are the pairs of `l`.
  `reflect.DeepEqual` on two such maps holds iff both are nil, or both
  are non-nil and contain exactly the same key/value associations
  (Go map iteration order is irrelevant); this is `labelsDeepEqual`
  below.
* Entity schemas (Cluster, Machine, SveltosCluster, ClusterSummary,
  HealthCheckReport, HealthCheck) live in external modules; only the
  fields the predicates read matter, but each structure also carries
  representative further fields so that independence claims
  ("no other field matters") are not vacuous.  `reflect.DeepEqual`
  on these plain structures of strings, booleans and lists is
  structural equality.
* The logger threaded through every predicate only produces
  diagnostics and never influences the returned verdict, so it is
  dropped from the embedding.
-/

namespace HealthCheckManager

/-- A Go `map[string]string` entry list (order irrelevant). -/
abbrev LabelEntries := List (String × String)

/-- Lookup of a key in a Go map modelled as an entry list. -/
def lookupLabel : LabelEntries → String → Option String
  | [], _ => none
  | (k, v) :: rest, key => if k = key then some v else lookupLabel rest key

/-- `reflect.DeepEqual` on two non-nil `map[string]string` values:
every association of one is an association of the other, in both
directions (iteration order of a Go map never matters). -/
def mapDeepEqual (a b : LabelEntries) : Bool :=
  a.all (fun kv => lookupLabel b kv.1 == some kv.2) &&
  b.all (fun kv => lookupLabel a kv.1 == some kv.2)

/-- `reflect.DeepEqual` on two possibly-nil `map[string]string` values:
maps are deeply equal when both are nil, or both are non-nil and hold
the same associations.  A nil map and a non-nil empty map are NOT
deeply equal in Go. -/
def labelsDeepEqual : Option LabelEntries → Option LabelEntries → Bool
  | none, none => true
  | some a, some b => mapDeepEqual a b
  | _, _ => false

/-- The key/value-set reading of label comparison used by the
specification text ("order-independent, exact key/value set
comparison"), under which a nil map and an empty map both denote the
empty set of labels.  Modelled from the spec: this is the spec-side
comparison used to check the code-side `labelsDeepEqual` against. -/
def labelSetEqual (a b : Option LabelEntries) : Bool :=
  mapDeepEqual (a.getD []) (b.getD [])

/-! ### Entity schemas (cluster-api Cluster and Machine) -/

/-- `clusterv1.ClusterSpec`: the predicate only reads `Paused`. -/
structure ClusterSpec where
  paused : Bool
  topologyVersion : String
  deriving DecidableEq

/-- `clusterv1.ClusterStatus`: none of these fields is read by the
generic cluster predicate; they witness independence claims. -/
structure ClusterStatus where
  controlPlaneReady : Bool
  infrastructureReady : Bool
  phase : String
  deriving DecidableEq

/-- `clusterv1.Cluster` restricted to the fields around the predicate. -/
structure Cluster where
  nspace : String
  name : String
  labels : Option LabelEntries
  spec : ClusterSpec
  status : ClusterStatus
  deriving DecidableEq

/-- `clusterv1.MachinePhase` as produced by `GetTypedPhase`. -/
inductive MachinePhase where
  | pending
  | provisioning
  | provisioned
  | running
  | deleting
  | deleted
  | failed
  | unknown
  deriving DecidableEq

/-- `MachineStatus.GetTypedPhase`: the raw phase string narrowed to the
known phases, any other string (including the empty one) mapping to
`unknown`. -/
def getTypedPhase (s : String) : MachinePhase :=
  if s = "Pending" then .pending
  else if s = "Provisioning" then .provisioning
  else if s = "Provisioned" then .provisioned
  else if s = "Running" then .running
  else if s = "Deleting" then .deleting
  else if s = "Deleted" then .deleted
  else if s = "Failed" then .failed
  else .unknown

/-- `clusterv1.MachineStatus`: the predicate reads only `Phase`
(through `GetTypedPhase`); `nodeName` is a representative other
field. -/
structure MachineStatus where
  phase : String
  nodeName : String
  deriving DecidableEq

/-- `clusterv1.Machine` restricted to the fields around the predicate. -/
structure Machine where
  nspace : String
  name : String
  labels : Option LabelEntries
  status : MachineStatus
  deriving DecidableEq

/-! ### Entity schemas (Sveltos types) -/

/-- `libsveltosv1beta1.SveltosClusterSpec`: the predicate reads
`Paused`. -/
structure SveltosClusterSpec where
  paused : Bool
  kubeconfigName : String
  deriving DecidableEq

/-- `libsveltosv1beta1.SveltosClusterStatus`: the predicate reads
`Ready`; `version` is a representative other field. -/
structure SveltosClusterStatus where
  ready : Bool
  version : String
  deriving DecidableEq

/-- `libsveltosv1beta1.SveltosCluster` restricted to the fields around
the predicate. -/
structure SveltosCluster where
  nspace : String
  name : String
  labels : Option LabelEntries
  spec : SveltosClusterSpec
  status : SveltosClusterStatus
  deriving DecidableEq

/-- One entry of `ClusterSummaryStatus.FeatureSummaries`. -/
structure FeatureSummary where
  featureID : String
  status : String
  hash : List Nat
  failureMessage : Option String
  deriving DecidableEq

/-- `configv1beta1.ClusterSummarySpec` (representative fields; the
predicate never reads the spec). -/
structure ClusterSummarySpec where
  clusterNamespace : String
  clusterName : String
  deriving DecidableEq

/-- `configv1beta1.ClusterSummaryStatus`: the predicate reads only
`FeatureSummaries`, a possibly-nil Go slice, hence the `Option`;
`dependencies` is a representative other status field. -/
structure ClusterSummaryStatus where
  featureSummaries : Option (List FeatureSummary)
  dependencies : String
  deriving DecidableEq

/-- `configv1beta1.ClusterSummary` restricted to the fields around the
predicate. -/
structure ClusterSummary where
  nspace : String
  name : String
  spec : ClusterSummarySpec
  status : ClusterSummaryStatus
  deriving DecidableEq

/-- One entry of `HealthCheckReportSpec.ResourceStatuses`. -/
structure ResourceStatus where
  objectRef : String
  healthStatus : String
  message : String
  deriving DecidableEq

/-- `libsveltosv1beta1.HealthCheckReportSpec`: the payload the update
predicate deep-compares. -/
structure HealthCheckReportSpec where
  clusterNamespace : String
  clusterName : String
  clusterType : String
  healthCheckName : String
  resourceStatuses : List ResourceStatus
  deriving DecidableEq

/-- `libsveltosv1beta1.HealthCheckReport` restricted to the fields
around the predicate; `phase` is a representative non-spec field. -/
structure HealthCheckReport where
  nspace : String
  name : String
  labels : Option LabelEntries
  spec : HealthCheckReportSpec
  phase : String
  deriving DecidableEq

/-- One entry of `HealthCheckSpec.ResourceSelectors`. -/
structure ResourceSelector where
  group : String
  version : String
  kind : String
  deriving DecidableEq

/-- `libsveltosv1beta1.HealthCheckSpec`: the payload the update
predicate deep-compares. -/
structure HealthCheckSpec where
  resourceSelectors : List ResourceSelector
  evaluateHealth : String
  collectResources : Bool
  deriving DecidableEq

/-- `libsveltosv1beta1.HealthCheck` restricted to the fields around the
predicate (cluster-scoped: no namespace). -/
structure HealthCheck where
  name : String
  labels : Option LabelEntries
  spec : HealthCheckSpec
  deriving DecidableEq

/-! ### The relevance predicates, translated branch for branch -/

/-- `ClusterPredicate.Create`: trigger iff `Cluster.Spec.Paused` is
false. -/
def clusterPredicateCreate (cluster : Cluster) : Bool :=
  if !cluster.spec.paused then true else false

/-- `ClusterPredicate.Update`: nil old object triggers; then a
paused-to-unpaused transition triggers; then a `reflect.DeepEqual`
difference of the label maps triggers; otherwise no trigger. -/
def clusterPredicateUpdate (oldCluster : Option Cluster) (newCluster : Cluster) : Bool :=
  match oldCluster with
  | none => true
  | some o =>
    if o.spec.paused && !newCluster.spec.paused then true
    else if !labelsDeepEqual o.labels newCluster.labels then true
    else false

/-- `ClusterPredicate.Delete`: always trigger. -/
def clusterPredicateDelete (_cluster : Cluster) : Bool :=
  true

/-- `ClusterPredicate.Generic`: never trigger. -/
def clusterPredicateGeneric (_cluster : Cluster) : Bool :=
  false

/-- `MachinePredicate.Create`: trigger iff the typed phase is
`Running`. -/
def machinePredicateCreate (machine : Machine) : Bool :=
  if getTypedPhase machine.status.phase = .running then true else false

/-- `MachinePredicate.Update`: first, a new object whose typed phase is
not `Running` never triggers; then a nil old object triggers; then a
typed-phase change triggers; otherwise no trigger. -/
def machinePredicateUpdate (oldMachine : Option Machine) (newMachine : Machine) : Bool :=
  if getTypedPhase newMachine.status.phase ≠ .running then false
  else
    match oldMachine with
    | none => true
    | some o =>
      if getTypedPhase o.status.phase ≠ getTypedPhase newMachine.status.phase then true
      else false

/-- `MachinePredicate.Delete`: never trigger. -/
def machinePredicateDelete (_machine : Machine) : Bool :=
  false

/-- `MachinePredicate.Generic`: never trigger. -/
def machinePredicateGeneric (_machine : Machine) : Bool :=
  false

/-- `SveltosClusterPredicates.CreateFunc`: trigger iff
`Spec.Paused` is false. -/
def sveltosClusterCreate (cluster : SveltosCluster) : Bool :=
  if !cluster.spec.paused then true else false

/-- `SveltosClusterPredicates.UpdateFunc`: nil old object triggers;
then a paused-to-unpaused transition triggers; then a
not-ready-to-ready transition triggers; then a `reflect.DeepEqual`
difference of the label maps triggers; otherwise no trigger. -/
def sveltosClusterUpdate (oldCluster : Option SveltosCluster) (newCluster : SveltosCluster) : Bool :=
  match oldCluster with
  | none => true
  | some o =>
    if o.spec.paused && !newCluster.spec.paused then true
    else if !o.status.ready && newCluster.status.ready then true
    else if !labelsDeepEqual o.labels newCluster.labels then true
    else false

/-- `SveltosClusterPredicates.DeleteFunc`: always trigger. -/
def sveltosClusterDelete (_cluster : SveltosCluster) : Bool :=
  true

/-- `SveltosClusterPredicates.GenericFunc`: never trigger. -/
def sveltosClusterGeneric (_cluster : SveltosCluster) : Bool :=
  false

/-- `ClusterSummaryPredicates.CreateFunc`: never trigger. -/
def clusterSummaryCreate (_cs : ClusterSummary) : Bool :=
  false

/-- `ClusterSummaryPredicates.UpdateFunc`: nil old object triggers;
then a `reflect.DeepEqual` difference of `Status.FeatureSummaries`
triggers; otherwise no trigger. -/
def clusterSummaryUpdate (oldCS : Option ClusterSummary) (newCS : ClusterSummary) : Bool :=
  match oldCS with
  | none => true
  | some o =>
    if o.status.featureSummaries ≠ newCS.status.featureSummaries then true
    else false

/-- `ClusterSummaryPredicates.DeleteFunc`: always trigger. -/
def clusterSummaryDelete (_cs : ClusterSummary) : Bool :=
  true

/-- `ClusterSummaryPredicates.GenericFunc`: never trigger. -/
def clusterSummaryGeneric (_cs : ClusterSummary) : Bool :=
  false

/-- `HealthCheckReportPredicates.CreateFunc`: always trigger. -/
def healthCheckReportCreate (_r : HealthCheckReport) : Bool :=
  true

/-- `HealthCheckReportPredicates.UpdateFunc`: nil old object triggers;
then a `reflect.DeepEqual` difference of `Spec` triggers; otherwise no
trigger. -/
def healthCheckReportUpdate (oldR : Option HealthCheckReport) (newR : HealthCheckReport) : Bool :=
  match oldR with
  | none => true
  | some o =>
    if o.spec ≠ newR.spec then true
    else false

/-- `HealthCheckReportPredicates.DeleteFunc`: always trigger. -/
def healthCheckReportDelete (_r : HealthCheckReport) : Bool :=
  true

/-- `HealthCheckReportPredicates.GenericFunc`: never trigger. -/
def healthCheckReportGeneric (_r : HealthCheckReport) : Bool :=
  false

/-- `HealthCheckPredicates.CreateFunc`: always trigger. -/
def healthCheckCreate (_h : HealthCheck) : Bool :=
  true

/-- `HealthCheckPredicates.UpdateFunc`: nil old object triggers; then a
`reflect.DeepEqual` difference of `Spec` triggers; otherwise no
trigger. -/
def healthCheckUpdate (oldH : Option HealthCheck) (newH : HealthCheck) : Bool :=
  match oldH with
  | none => true
  | some o =>
    if o.spec ≠ newH.spec then true
    else false

/-- `HealthCheckPredicates.DeleteFunc`: always trigger. -/
def healthCheckDelete (_h : HealthCheck) : Bool :=
  true

/-- `HealthCheckPredicates.GenericFunc`: never trigger. -/
def healthCheckGeneric (_h : HealthCheck) : Bool :=
  false

/-! ### Notifications and dispatch -/

/-- The four watch operations. -/
inductive Operation where
  | create
  | update
  | delete
  | generic
  deriving DecidableEq

/-- The watched entity kinds. -/
inductive Kind where
  | cluster
  | sveltosCluster
  | machine
  | clusterSummary
  | healthCheckReport
  | healthCheck
  deriving DecidableEq

/-- A watch notification: the operation, the optional old snapshot
(read only on update) and the current object, tagged by its kind. -/
inductive Notification where
  | cluster (op : Operation) (oldObj : Option Cluster) (newObj : Cluster)
  | sveltosCluster (op : Operation) (oldObj : Option SveltosCluster) (newObj : SveltosCluster)
  | machine (op : Operation) (oldObj : Option Machine) (newObj : Machine)
  | clusterSummary (op : Operation) (oldObj : Option ClusterSummary) (newObj : ClusterSummary)
  | healthCheckReport (op : Operation) (oldObj : Option HealthCheckReport) (newObj : HealthCheckReport)
  | healthCheck (op : Operation) (oldObj : Option HealthCheck) (newObj : HealthCheck)
  deriving DecidableEq

/-- The operation a notification carries. -/
def Notification.op : Notification → Operation
  | .cluster op _ _ => op
  | .sveltosCluster op _ _ => op
  | .machine op _ _ => op
  | .clusterSummary op _ _ => op
  | .healthCheckReport op _ _ => op
  | .healthCheck op _ _ => op

/-- The kind a notification carries. -/
def Notification.kind : Notification → Kind
  | .cluster _ _ _ => .cluster
  | .sveltosCluster _ _ _ => .sveltosCluster
  | .machine _ _ _ => .machine
  | .clusterSummary _ _ _ => .clusterSummary
  | .healthCheckReport _ _ _ => .healthCheckReport
  | .healthCheck _ _ _ => .healthCheck

/-- Registry dispatch: each kind's per-operation predicate, exactly as
the controller wires `ClusterPredicate`, `MachinePredicate`,
`SveltosClusterPredicates`, `ClusterSummaryPredicates`,
`HealthCheckReportPredicates` and `HealthCheckPredicates` into its
watches. -/
def evaluate : Notification → Bool
  | .cluster op oldObj newObj =>
    match op with
    | .create => clusterPredicateCreate newObj
    | .update => clusterPredicateUpdate oldObj newObj
    | .delete => clusterPredicateDelete newObj
    | .generic => clusterPredicateGeneric newObj
  | .sveltosCluster op oldObj newObj =>
    match op with
    | .create => sveltosClusterCreate newObj
    | .update => sveltosClusterUpdate oldObj newObj
    | .delete => sveltosClusterDelete newObj
    | .generic => sveltosClusterGeneric newObj
  | .machine op oldObj newObj =>
    match op with
    | .create => machinePredicateCreate newObj
    | .update => machinePredicateUpdate oldObj newObj
    | .delete => machinePredicateDelete newObj
    | .generic => machinePredicateGeneric newObj
  | .clusterSummary op oldObj newObj =>
    match op with
    | .create => clusterSummaryCreate newObj
    | .update => clusterSummaryUpdate oldObj newObj
    | .delete => clusterSummaryDelete newObj
    | .generic => clusterSummaryGeneric newObj
  | .healthCheckReport op oldObj newObj =>
    match op with
    | .create => healthCheckReportCreate newObj
    | .update => healthCheckReportUpdate oldObj newObj
    | .delete => healthCheckReportDelete newObj
    | .generic => healthCheckReportGeneric newObj
  | .healthCheck op oldObj newObj =>
    match op with
    | .create => healthCheckCreate newObj
    | .update => healthCheckUpdate oldObj newObj
    | .delete => healthCheckDelete newObj
    | .generic => healthCheckGeneric newObj

/-! ### Sample objects used in counterexamples and witnesses -/

/-- A machine whose phase is `Pending`. -/
def mPending : Machine :=
  { nspace := "default", name := "m1", labels := none,
    status := { phase := "Pending", nodeName := "" } }

/-- A machine whose phase is `Provisioning`. -/
def mProvisioning : Machine :=
  { nspace := "default", name := "m1", labels := none,
    status := { phase := "Provisioning", nodeName := "" } }

/-- A machine whose phase is `Running`. -/
def mRunning : Machine :=
  { nspace := "default", name := "m1", labels := none,
    status := { phase := "Running", nodeName := "node-1" } }

/-- An unpaused cluster whose label map is nil. -/
def cNilLabels : Cluster :=
  { nspace := "default", name := "c1", labels := none,
    spec := { paused := false, topologyVersion := "v1.28.0" },
    status := { controlPlaneReady := true, infrastructureReady := true,
                phase := "Provisioned" } }

/-- The same cluster with a non-nil but empty label map. -/
def cEmptyLabels : Cluster :=
  { cNilLabels with labels := some [] }

/-- The same cluster with only status fields changed. -/
def cStatusChanged : Cluster :=
  { cNilLabels with
    status := { controlPlaneReady := false, infrastructureReady := false,
                phase := "Provisioning" } }

/-! ### Claim theorems -/

/-- Claim C1, counterexample: a machine Update whose old snapshot is
absent does NOT return true regardless of the new snapshot — the
machine predicate tests the new phase before the nil-check, so with a
new snapshot in phase `Pending` the verdict is false. -/
theorem c1_machine_nil_old_counterexample :
    evaluate (.machine .update none mPending) = false := by
  decide

/-- Claim C1 as amended: for the cluster, sveltos-cluster,
cluster-summary, health-check-report and health-check kinds, an Update
whose old snapshot is absent returns true regardless of the new
snapshot; for the machine kind it returns true exactly when the new
snapshot's typed phase is Running, because the running-phase gate
precedes the nil-check. -/
theorem c1_nil_old_update :
    (∀ c : Cluster, clusterPredicateUpdate none c = true) ∧
    (∀ c : SveltosCluster, sveltosClusterUpdate none c = true) ∧
    (∀ cs : ClusterSummary, clusterSummaryUpdate none cs = true) ∧
    (∀ r : HealthCheckReport, healthCheckReportUpdate none r = true) ∧
    (∀ h : HealthCheck, healthCheckUpdate none h = true) ∧
    (∀ m : Machine, machinePredicateUpdate none m =
      decide (getTypedPhase m.status.phase = MachinePhase.running)) := by
  refine ⟨fun _ => rfl, fun _ => rfl, fun _ => rfl, fun _ => rfl, fun _ => rfl, fun m => ?_⟩
  unfold machinePredicateUpdate
  by_cases h : getTypedPhase m.status.phase = MachinePhase.running <;> simp [h]

/-- Claim C2, counterexample: a generic-cluster Update from a nil label
map to a present-but-empty label map, with the pause flag false on
both sides and identical status, returns true even though the pause
flag did not transition and the key/value label set is unchanged —
`reflect.DeepEqual` distinguishes a nil map from an empty one. -/
theorem c2_nil_empty_labels_counterexample :
    clusterPredicateUpdate (some cNilLabels) cEmptyLabels = true ∧
    (cNilLabels.spec.paused && !cEmptyLabels.spec.paused) = false ∧
    labelSetEqual cNilLabels.labels cEmptyLabels.labels = true ∧
    cNilLabels.status = cEmptyLabels.status := by
  refine ⟨by decide, by decide, by decide, by decide⟩

/-- Claim C2 as amended: for a cluster-kind Update with both snapshots
present, the verdict is true iff the pause flag transitioned
paused-to-unpaused, or (for the sveltos kind, which exposes a
readiness flag) readiness transitioned false-to-true, or the label
maps differ under Go deep comparison — which is the order-independent
key/value set comparison except that a nil label map and a present
empty label map count as different.  Otherwise (including a cluster
becoming paused with labels unchanged) the verdict is false. -/
theorem c2_cluster_update_iff :
    (∀ o n : Cluster, clusterPredicateUpdate (some o) n =
      ((o.spec.paused && !n.spec.paused) || !labelsDeepEqual o.labels n.labels)) ∧
    (∀ o n : SveltosCluster, sveltosClusterUpdate (some o) n =
      ((o.spec.paused && !n.spec.paused) || (!o.status.ready && n.status.ready) ||
        !labelsDeepEqual o.labels n.labels)) := by
  constructor
  · intro o n
    simp only [clusterPredicateUpdate]
    cases h1 : o.spec.paused && !n.spec.paused <;>
      cases h2 : labelsDeepEqual o.labels n.labels <;> simp [h1, h2]
  · intro o n
    simp only [sveltosClusterUpdate]
    cases h1 : o.spec.paused && !n.spec.paused <;>
      cases h2 : !o.status.ready && n.status.ready <;>
      cases h3 : labelsDeepEqual o.labels n.labels <;> simp [h1, h2, h3]

/-- Claim C3: on a machine Update, a new snapshot whose typed phase is
not Running always yields false; and with both snapshots present the
verdict is true exactly when the new typed phase is Running and the
old one is not, so an update that stays in the Running phase yields
false whatever other fields changed. -/
theorem c3_machine_update :
    (∀ (oldM : Option Machine) (n : Machine),
      getTypedPhase n.status.phase ≠ MachinePhase.running →
      machinePredicateUpdate oldM n = false) ∧
    (∀ o n : Machine, machinePredicateUpdate (some o) n =
      (decide (getTypedPhase n.status.phase = MachinePhase.running) &&
        !decide (getTypedPhase o.status.phase = MachinePhase.running))) := by
  constructor
  · intro oldM n h
    unfold machinePredicateUpdate
    simp [h]
  · intro o n
    unfold machinePredicateUpdate
    by_cases hn : getTypedPhase n.status.phase = MachinePhase.running
    · by_cases ho : getTypedPhase o.status.phase = MachinePhase.running <;>
        simp [hn, ho]
    · simp [hn]

/-- Witness for C3: at concrete machines, an update from Provisioning
into Running yields true, and an update to a Pending machine yields
false. -/
theorem c3_machine_update_witness :
    machinePredicateUpdate (some mRunning) mPending = false ∧
    machinePredicateUpdate (some mProvisioning) mRunning = true :=
  ⟨c3_machine_update.1 (some mRunning) mPending (by decide),
    (c3_machine_update.2 mProvisioning mRunning).trans (by decide)⟩

/-- Claim C4: a machine Create returns true iff the typed phase is
Running at creation, a machine Delete always returns false, and among
all watched kinds the machine kind is the only one whose Delete
verdict is false. -/
theorem c4_machine_create_delete :
    (∀ m : Machine, machinePredicateCreate m =
      decide (getTypedPhase m.status.phase = MachinePhase.running)) ∧
    (∀ m : Machine, machinePredicateDelete m = false) ∧
    (∀ n : Notification, n.op = Operation.delete →
      (evaluate n = false ↔ n.kind = Kind.machine)) := by
  refine ⟨fun m => ?_, fun _ => rfl, fun n hop => ?_⟩
  · unfold machinePredicateCreate
    by_cases h : getTypedPhase m.status.phase = MachinePhase.running <;> simp [h]
  · cases n <;> simp only [Notification.op] at hop <;> subst hop <;>
      simp [evaluate, Notification.kind, clusterPredicateDelete, sveltosClusterDelete,
        machinePredicateDelete, clusterSummaryDelete, healthCheckReportDelete,
        healthCheckDelete]

/-- Witness for C4: a concrete machine Delete notification evaluates
to false. -/
theorem c4_machine_create_delete_witness :
    evaluate (.machine .delete none mRunning) = false :=
  (c4_machine_create_delete.2.2 (.machine .delete none mRunning) rfl).mpr rfl

/-- Claim C5: every Generic (resync) notification evaluates to false,
whatever the kind and the object contents. -/
theorem c5_generic_false :
    ∀ n : Notification, n.op = Operation.generic → evaluate n = false := by
  intro n hop
  cases n <;> simp only [Notification.op] at hop <;> subst hop <;> rfl

/-- Witness for C5: a concrete Generic cluster notification evaluates
to false. -/
theorem c5_generic_false_witness :
    evaluate (.cluster .generic none cNilLabels) = false :=
  c5_generic_false (.cluster .generic none cNilLabels) rfl

/-- Claim C6: for the health-check-report and health-check kinds,
Create and Delete always return true, and an Update with both
snapshots present returns true iff the Spec sub-structure differs by
deep structural comparison. -/
theorem c6_report_and_healthcheck :
    (∀ r : HealthCheckReport, healthCheckReportCreate r = true) ∧
    (∀ r : HealthCheckReport, healthCheckReportDelete r = true) ∧
    (∀ o n : HealthCheckReport,
      healthCheckReportUpdate (some o) n = !decide (o.spec = n.spec)) ∧
    (∀ h : HealthCheck, healthCheckCreate h = true) ∧
    (∀ h : HealthCheck, healthCheckDelete h = true) ∧
    (∀ o n : HealthCheck, healthCheckUpdate (some o) n = !decide (o.spec = n.spec)) := by
  refine ⟨fun _ => rfl, fun _ => rfl, fun o n => ?_, fun _ => rfl, fun _ => rfl,
    fun o n => ?_⟩
  · unfold healthCheckReportUpdate
    by_cases h : o.spec = n.spec <;> simp [h]
  · unfold healthCheckUpdate
    by_cases h : o.spec = n.spec <;> simp [h]

/-- Claim C7: for the cluster-summary kind, Create always returns
false, Delete always returns true, and an Update with both snapshots
present returns true iff `Status.FeatureSummaries` differs by deep
structural comparison — so a change confined to any other field yields
false. -/
theorem c7_cluster_summary :
    (∀ cs : ClusterSummary, clusterSummaryCreate cs = false) ∧
    (∀ cs : ClusterSummary, clusterSummaryDelete cs = true) ∧
    (∀ o n : ClusterSummary, clusterSummaryUpdate (some o) n =
      !decide (o.status.featureSummaries = n.status.featureSummaries)) := by
  refine ⟨fun _ => rfl, fun _ => rfl, fun o n => ?_⟩
  unfold clusterSummaryUpdate
  by_cases h : o.status.featureSummaries = n.status.featureSummaries <;> simp [h]

/-- Claim C8: for both cluster kinds, Create returns true iff the
cluster's pause flag is false, and Delete always returns true. -/
theorem c8_cluster_create_delete :
    (∀ c : Cluster, (clusterPredicateCreate c = true ↔ c.spec.paused = false)) ∧
    (∀ c : Cluster, clusterPredicateDelete c = true) ∧
    (∀ c : SveltosCluster, (sveltosClusterCreate c = true ↔ c.spec.paused = false)) ∧
    (∀ c : SveltosCluster, sveltosClusterDelete c = true) := by
  refine ⟨fun c => ?_, fun _ => rfl, fun c => ?_, fun _ => rfl⟩
  · unfold clusterPredicateCreate
    cases h : c.spec.paused <;> simp [h]
  · unfold sveltosClusterCreate
    cases h : c.spec.paused <;> simp [h]

/-- Claim C9: evaluation is deterministic — two notifications with
identical operation, old snapshot and new snapshot (i.e. equal
notifications) always evaluate to the same verdict. -/
theorem c9_deterministic :
    ∀ n₁ n₂ : Notification, n₁ = n₂ → evaluate n₁ = evaluate n₂ := by
  intro n₁ n₂ h
  rw [h]

/-- Witness for C9: evaluating a concrete notification twice gives the
same verdict. -/
theorem c9_deterministic_witness :
    evaluate (.machine .update (some mProvisioning) mRunning) =
      evaluate (.machine .update (some mProvisioning) mRunning) :=
  c9_deterministic _ _ rfl

/-- Claim C10: the generic cluster Update verdict depends only on the
old and new pause flags and label maps — two updates agreeing on those
four values get equal verdicts — and in particular an update with no
paused-to-unpaused transition and deeply-equal labels (e.g. a
status-only change) returns false. -/
theorem c10_cluster_update_dependence :
    (∀ o₁ n₁ o₂ n₂ : Cluster,
      o₁.spec.paused = o₂.spec.paused → n₁.spec.paused = n₂.spec.paused →
      o₁.labels = o₂.labels → n₁.labels = n₂.labels →
      clusterPredicateUpdate (some o₁) n₁ = clusterPredicateUpdate (some o₂) n₂) ∧
    (∀ o n : Cluster, ¬(o.spec.paused = true ∧ n.spec.paused = false) →
      labelsDeepEqual o.labels n.labels = true →
      clusterPredicateUpdate (some o) n = false) := by
  constructor
  · intro o₁ n₁ o₂ n₂ hp₁ hp₂ hl₁ hl₂
    simp only [clusterPredicateUpdate, hp₁, hp₂, hl₁, hl₂]
  · intro o n hp hl
    simp only [clusterPredicateUpdate, hl]
    cases ho : o.spec.paused <;> cases hn : n.spec.paused <;> simp_all

/-- Witness for C10: a concrete status-only cluster change (no pause
transition, labels untouched) evaluates to false. -/
theorem c10_cluster_update_dependence_witness :
    clusterPredicateUpdate (some cNilLabels) cStatusChanged = false :=
  c10_cluster_update_dependence.2 cNilLabels cStatusChanged (by decide) (by decide)

end HealthCheckManager
